import Mathlib

/-!
Verification of the transport/session core of py-IoticAgent
(`IoticAgent/Core`): the AMQP connection manager (`AmqpLink`), the
request correlation primitive (`RequestEvent`), the receiver's drain/ack
loop, and the wire-envelope codec constants (`Const`).

Python exceptions are modelled as data (an `Exc` value carrying its
class and an identifying payload); fallible methods return
`Except LinkException _`.  Thread interaction (whether a readiness
event was signalled within a bounded wait, what exception a session
thread captured) is modelled by explicit environment/oracle arguments,
so each method becomes a pure state transformer.
-/

/-- The Python exception classes that the `AmqpLink` handlers
distinguish (`amqp.exceptions.AccessRefused`, `ConnectionForced`,
`socket.timeout`, `ssl.SSLError`, `amqp.exceptions.AMQPError`,
`OSError`, and anything else). -/
inductive ExcKind where
  | accessRefused
  | connectionForced
  | socketTimeout
  | sslError
  | amqpError
  | osError
  | unexpected
  deriving DecidableEq, Repr

/-- A captured Python exception object: its class plus an identity tag,
so that "raises that exact stored error object" is expressible. -/
structure Exc where
  kind : ExcKind
  data : ℕ
  deriving DecidableEq, Repr

/-- The `LinkException`s raised by `AmqpLink` (`Core/Exceptions.py`),
tagged with the message of the `raise`/`raise_from` site and the chained
cause where the code uses `raise_from`. -/
inductive LinkException where
  /-- `LinkException('Receive thread failure')` chained from the recv error. -/
  | receiveThreadFailure (cause : Exc)
  /-- `LinkException('Send thread failure')` chained from the send error. -/
  | sendThreadFailure (cause : Exc)
  /-- `LinkException('Unknown link failure (timeout reached)')`. -/
  | unknownLinkFailure
  /-- `LinkException('amqplink already started')`. -/
  | alreadyStarted
  /-- `LinkException('Access denied')` chained from `AccessRefused`. -/
  | accessDenied (cause : Exc)
  /-- `LinkException('amqp/transport failure')` chained from the publish error. -/
  | amqpTransportFailure (cause : Exc)
  /-- `LinkException('unexpected failure')` chained from the publish error. -/
  | unexpectedFailure (cause : Exc)
  /-- `LinkException('Sender unavailable')` chained from the captured send error. -/
  | senderUnavailable (cause : Exc)
  /-- `LinkException('Sender unavailable (unknown error)')`. -/
  | senderUnavailableUnknown
  deriving DecidableEq, Repr

/-!
## `RequestEvent` (`Core/RequestEvent.py`)

The single-use request correlator.  `__event` is a `threading.Event`,
modelled as the boolean `event`; raw payloads and messages are opaque
(naturals).
-/

/-- State of one `RequestEvent` instance (`RequestEvent.__init__`). -/
structure RequestEvent where
  /-- the underlying `threading.Event`: true once `_set()` was called -/
  event : Bool := false
  /-- request id used to communicate with the QAPI -/
  id_ : Option ℕ := none
  /-- success True or failure False or None for not set yet -/
  success : Option Bool := none
  /-- Complete/Error message payload or error message -/
  payload : Option ℕ := none
  /-- whether the associated operation is a resource CRUD type -/
  is_crud : Bool := false
  /-- if an exception occurred, this is the instance -/
  exception : Option Exc := none
  /-- raw messages from the QAPI -/
  messages : List ℕ := []
  deriving DecidableEq, Repr

/-- `RequestEvent.is_set`: returns True if the request has finished,
False if still pending; raises the stored exception when one was
captured.  The method reads but never writes the instance. -/
def RequestEvent.is_set (r : RequestEvent) : Except Exc Bool :=
  if r.event then
    match r.exception with
    | some e => .error e
    | none => .ok true
  else .ok false

/-- `RequestEvent.wait(timeout)`: blocks on `__event.wait(timeout)`;
`becomesSet` says whether the event (if not already set) got set within
the timeout.  On a fulfilled wait the stored exception, when present, is
raised in the caller's own stack; otherwise True is returned. -/
def RequestEvent.wait (r : RequestEvent) (becomesSet : Bool) : Except Exc Bool :=
  if r.event || becomesSet then
    match r.exception with
    | some e => .error e
    | none => .ok true
  else .ok false

/-!
## `AmqpLink` (`Core/AmqpLink.py`)

The connection manager.  Credential strings (host, vhost, user name
components, password) play no role in the verified properties and are
omitted; the numeric tunables and all mutable state are kept.  A thread
reference (`__recv_thread`/`__send_thread`) is modelled as a boolean:
`true` while the `Thread` object is held (between `Thread()/start()` and
the `join()`ed reference being reset to `None`).
-/

/-- `AmqpLink.__init__` state.  Defaults are the constructor defaults
(`prefetch=128, ackpc=0.5, acksecs=1, heartbeat=30, draintimeout=0.1`). -/
structure AmqpLink where
  prefetch : ℕ := 128
  ackpc : ℚ := 1/2
  acksecs : ℚ := 1
  heartbeat : ℚ := 30
  draintimeout : ℚ := 1/10
  unacked : ℕ := 0
  last_id : Option ℕ := none
  /-- `self.__end` event -/
  endFlag : Bool := false
  /-- `self.__recv_ready` event -/
  recv_ready : Bool := false
  /-- `self.__recv_thread is not None` -/
  recv_thread : Bool := false
  /-- `self.__send_ready` event -/
  send_ready : Bool := false
  /-- `self.__send_thread is not None` -/
  send_thread : Bool := false
  /-- `self.__send_exc`: used to pass exceptions to blocking calls -/
  send_exc : Option Exc := none
  /-- `self.__recv_exc` -/
  recv_exc : Option Exc := none
  deriving DecidableEq, Repr

/-- `self.__ack_threshold = self.__prefetch * self.__ackpc` (a float
product in the source; no rounding is applied). -/
def AmqpLink.ack_threshold (s : AmqpLink) : ℚ :=
  (s.prefetch : ℚ) * s.ackpc

/-- `AmqpLink.is_alive`: both readiness events set and both thread
objects held and running (a joined thread reference is `None`, so a
held reference stands for a live thread here). -/
def AmqpLink.is_alive (s : AmqpLink) : Bool :=
  s.send_ready && s.recv_ready && s.send_thread && s.recv_thread

/-- `AmqpLink.stop`: sets `__end`, joins each running thread and clears
its reference.  Joining a session thread runs it to completion: its
`finally`/retry-loop blocks clear the session's readiness event, so a
joined session leaves its ready flag cleared. -/
def AmqpLink.stop (s : AmqpLink) : AmqpLink :=
  let s1 : AmqpLink := { s with endFlag := true }
  let s2 : AmqpLink :=
    if s1.recv_thread then { s1 with recv_thread := false, recv_ready := false } else s1
  if s2.send_thread then { s2 with send_thread := false, send_ready := false } else s2

/-- What the environment (the two freshly started session threads) did
during `start()`'s bounded readiness waits: whether each thread raised
its readiness event within the 2.5 s bound, and the exception it
captured into its error slot meanwhile (`none` = captured nothing, the
slot keeps its previous value). -/
structure StartEnv where
  sendReadyInTime : Bool
  recvReadyInTime : Bool
  sendExc : Option Exc
  recvExc : Option Exc
  deriving DecidableEq, Repr

/-- `AmqpLink.start`: guarded against double start; clears the events,
starts the send thread and waits up to 2.5 s for `__send_ready`, then
(only on success) starts the recv thread and waits up to 2.5 s for
`__recv_ready`.  On either timeout it calls `stop()` and raises,
preferring the captured receive error, then the captured send error,
then the generic timeout error.  The recv thread resets `__recv_exc` to
`None` just before signalling readiness. -/
def AmqpLink.start (s : AmqpLink) (env : StartEnv) : AmqpLink × Except LinkException Unit :=
  if s.recv_thread || s.send_thread then
    (s, .error .alreadyStarted)
  else
    let s1 : AmqpLink :=
      { s with endFlag := false, send_ready := false, recv_ready := false, send_thread := true }
    let s2 : AmqpLink :=
      { s1 with send_ready := env.sendReadyInTime,
                send_exc := env.sendExc.orElse fun _ => s1.send_exc }
    if env.sendReadyInTime then
      let s3 : AmqpLink := { s2 with recv_thread := true }
      let s4 : AmqpLink :=
        if env.recvReadyInTime then { s3 with recv_ready := true, recv_exc := none }
        else { s3 with recv_exc := env.recvExc.orElse fun _ => s3.recv_exc }
      if env.recvReadyInTime then (s4, .ok ())
      else
        let s5 := s4.stop
        match s5.recv_exc with
        | some e => (s5, .error (.receiveThreadFailure e))
        | none =>
          match s5.send_exc with
          | some e => (s5, .error (.sendThreadFailure e))
          | none => (s5, .error .unknownLinkFailure)
    else
      let s5 := s2.stop
      match s5.recv_exc with
      | some e => (s5, .error (.receiveThreadFailure e))
      | none =>
        match s5.send_exc with
        | some e => (s5, .error (.sendThreadFailure e))
        | none => (s5, .error .unknownLinkFailure)

/-- `self.__send_ready.wait(timeout)` with a finite timeout: succeeds
iff the flag is already set, or the sender thread is running and sets
it within the wait (`becomes`). -/
def AmqpLink.sendReadyWait (s : AmqpLink) (becomes : Bool) : Bool :=
  s.send_ready || (s.send_thread && becomes)

/-- Outcome of the guarded `basic_publish` call inside `send`. -/
inductive PubOutcome where
  | ok
  | raised (e : Exc)
  deriving DecidableEq, Repr

/-- Environment for one `send()` call: whether the sender became ready
during the bounded wait, and how the publish itself went. -/
structure SendEnv where
  senderBecomesReady : Bool
  pub : PubOutcome
  deriving DecidableEq, Repr

/-- `AmqpLink.send(body, timeout)`: waits on `__send_ready`; on success
publishes under `__send_lock`, translating publish-time exceptions
(`AccessRefused` first, then `(AMQPError, OSError)` — which also cover
`ConnectionForced`, `socket.timeout` and `ssl.SSLError` as subclasses —
then any `Exception`).  If the sender never became ready, raises
`Sender unavailable` chained from `__send_exc` when set, else the
unknown-error variant.  The second component reports whether the
publish call was reached. -/
def AmqpLink.send (s : AmqpLink) (env : SendEnv) : Except LinkException Unit × Bool :=
  if s.sendReadyWait env.senderBecomesReady then
    match env.pub with
    | .ok => (.ok (), true)
    | .raised e =>
      match e.kind with
      | .accessRefused => (.error (.accessDenied e), true)
      | .connectionForced => (.error (.amqpTransportFailure e), true)
      | .amqpError => (.error (.amqpTransportFailure e), true)
      | .osError => (.error (.amqpTransportFailure e), true)
      | .socketTimeout => (.error (.amqpTransportFailure e), true)
      | .sslError => (.error (.amqpTransportFailure e), true)
      | .unexpected => (.error (.unexpectedFailure e), true)
  else
    match s.send_exc with
    | some e => (.error (.senderUnavailable e), false)
    | none => (.error .senderUnavailableUnknown, false)

/-!
## Receiver drain/ack loop (`AmqpLink.__recv_run`, `AmqpLink.__recv_cb`)

The drain loop is simulated over "poll slices": a slice is the list of
delivery tags the broker has available during one `drain_events(.1)`
window.  The inner loop drains messages while `__unacked <
__ack_threshold`; when it exits (threshold reached, or the 0.1 s poll
timed out as a `SocketTimeout`), a single cumulative
`basic_ack(last_id, multiple=True)` is issued if anything is unacked.
-/

/-- `AmqpLink.__recv_cb`: calls the user message callback inside
`try/except` (the exception is logged and swallowed); the `finally`
block records the delivery tag and increments the unacked counter
regardless of the callback's outcome.  `cbOutcome` is what the
registered callback did; the result is the method's own outcome
together with the new `(unacked, last_id)`. -/
def AmqpLink.recv_cb (unacked : ℕ) (last_id : Option ℕ) (tag : ℕ)
    (cbOutcome : Except Exc Unit) : Except Exc (ℕ × Option ℕ) :=
  match cbOutcome with
  | .ok _ => .ok (unacked + 1, some tag)
  | .error _ => .ok (unacked + 1, some tag)

/-- The inner drain loop: `while not end and unacked < ack_threshold:
drain_events(.1)`.  Each drained message runs `__recv_cb`, so the
counter and tag update as in `recv_cb`.  Returns the final
`(unacked, last_id)` and the deliveries left undrained (nonempty only
when the threshold stopped the loop before the poll window emptied). -/
def processSlice (thr : ℚ) : List ℕ → ℕ → Option ℕ → ℕ × Option ℕ × List ℕ
  | [], u, l => (u, l, [])
  | d :: ds, u, l =>
    if (u : ℚ) < thr then processSlice thr ds (u + 1) (some d)
    else (u, l, d :: ds)

/-- One iteration of the outer drain loop: drain the slice, then — "either
have waited for .1s or threshold reached, so always ack" — issue one
cumulative ack `(count, last_id)` iff `__unacked` is nonzero, resetting
the counter.  Returns `(ack?, unacked', last_id', leftover)`. -/
def outerIter (thr : ℚ) (slice : List ℕ) (u : ℕ) (l : Option ℕ) :
    Option (ℕ × Option ℕ) × ℕ × Option ℕ × List ℕ :=
  let r := processSlice thr slice u l
  if r.1 ≠ 0 then (some (r.1, r.2.1), 0, r.2.1, r.2.2)
  else (none, r.1, r.2.1, r.2.2)

/-- The outer drain loop run over a sequence of poll slices, threading
undrained leftovers into the next iteration (they are drained first,
before that window's new arrivals).  Returns the cumulative acks issued,
each as `(messages covered, delivery tag acked up to)`. -/
def recvSlices (thr : ℚ) : List (List ℕ) → List ℕ → ℕ → Option ℕ → List (ℕ × Option ℕ)
  | [], _, _, _ => []
  | slice :: rest, pending, u, l =>
    let r := outerIter thr (pending ++ slice) u l
    match r.1 with
    | some a => a :: recvSlices thr rest r.2.2.2 r.2.1 r.2.2.1
    | none => recvSlices thr rest r.2.2.2 r.2.1 r.2.2.1

/-- The flush decision the drain loop implements at each poll-slice
boundary, as a function of the unacked count there and whether the
0.1 s poll elapsed (vs. the threshold having been reached): ack iff
the loop could exit (threshold reached or poll elapsed) and the counter
is nonzero. -/
def flushDecision (prefetch : ℕ) (ackpc : ℚ) (unacked : ℕ) (pollElapsed : Bool) : Bool :=
  (decide ((prefetch : ℚ) * ackpc ≤ (unacked : ℚ)) || pollElapsed) && decide (0 < unacked)

/-- The spec's claimed decision function, following its words: `unackedCount
≥ threshold OR pollElapsed reached with unackedCount > 0`, with
`threshold = floor(prefetch × ackFraction)`. -/
def shouldFlushSpec (prefetch : ℕ) (ackFraction : ℚ) (unacked : ℕ) (pollElapsed : Bool) : Bool :=
  decide ((⌊(prefetch : ℚ) * ackFraction⌋ : ℤ) ≤ (unacked : ℤ)) ||
    (pollElapsed && decide (0 < unacked))

/-- The timeout argument the receive loop actually passes to each
blocking `conn.drain_events(.1)` call: the literal `0.1`, independent of
the stored `draintimeout` tunable (which `__recv_run` never reads). -/
def AmqpLink.drainCallTimeout (_s : AmqpLink) : ℚ := 1/10

/-- What one iteration of `__recv_run`'s retry loop does after its
`except` handlers classified an exception raised in the connect/run
cycle. -/
inductive RecvLoopAction where
  /-- `self.__end.wait(2)` then re-enter the loop (retry from Connect). -/
  | retryAfterBackoff
  /-- `break`: the receive loop exits permanently. -/
  | terminate
  deriving DecidableEq, Repr

/-- The `except` chain of `AmqpLink.__recv_run` (lines 298–322):
`AccessRefused`, `ConnectionForced`, `SocketTimeout`, `SSLError`,
`(AMQPError, OSError)` are each recorded and retried after a 2 s
backoff — but the `ConnectionForced` handler assigns the exception to
`self.__send_exc`, not `self.__recv_exc`; any other exception is
recorded in `__recv_exc` and terminates the loop. -/
def AmqpLink.recvClassify (s : AmqpLink) (e : Exc) : AmqpLink × RecvLoopAction :=
  match e.kind with
  | .accessRefused => ({ s with recv_exc := some e }, .retryAfterBackoff)
  | .connectionForced => ({ s with send_exc := some e }, .retryAfterBackoff)
  | .socketTimeout => ({ s with recv_exc := some e }, .retryAfterBackoff)
  | .sslError => ({ s with recv_exc := some e }, .retryAfterBackoff)
  | .amqpError => ({ s with recv_exc := some e }, .retryAfterBackoff)
  | .osError => ({ s with recv_exc := some e }, .retryAfterBackoff)
  | .unexpected => ({ s with recv_exc := some e }, .terminate)

/-!
## Wire envelope (`Core/Const.py` and the envelope codec)

The constants come from `Const.py`.  The encoder/decoder itself lives in
the Core client module, which is not part of the sources here; it is
modelled from the spec (§3, §6), parametric in the two external
compression libraries (zlib, lz4-framed) and the integrity-hash
function, none of which belong to this repository.
-/

/-- `COMP_NONE = 0` -/
def COMP_NONE : ℕ := 0

/-- `COMP_ZLIB = 1` -/
def COMP_ZLIB : ℕ := 1

/-- `COMP_LZ4F = 2` -/
def COMP_LZ4F : ℕ := 2

/-- `COMP_DEFAULT = COMP_ZLIB` -/
def COMP_DEFAULT : ℕ := COMP_ZLIB

/-- `COMP_SIZE = 768`: when the inner message is longer than this, the
selected compression is used. -/
def COMP_SIZE : ℕ := 768

/-- An external compression library: a compressor and its inverse.
zlib and lz4-framed are outside this repository, so they stay
parametric; round-trip theorems assume `decomp ∘ comp = id` for them. -/
structure Codec where
  comp : List ℕ → List ℕ
  decomp : List ℕ → List ℕ

/-- The outer wire envelope: sequence number, integrity hash of the
inner bytes, compression tag, (possibly compressed) message bytes. -/
structure Envelope where
  seq : ℕ
  hash : ℕ
  compression : ℕ
  message : List ℕ
  deriving DecidableEq

/-- Modelled from the spec: the envelope encoder of the Core client
module (not among the sources; only its constants in `Const.py` are).
"Compression is applied when the inner message exceeds a fixed size
threshold (768 bytes), using a configurable default algorithm (zlib
unless overridden)" — `compDefault` is the configured algorithm
(`COMP_DEFAULT` unless overridden, possibly `COMP_NONE` for no
compression); the envelope carries the sequence number, the integrity
hash of the inner bytes and the compression tag actually used. -/
def encodeEnvelope (zlib lz4 : Codec) (hashFn : List ℕ → ℕ) (compDefault : ℕ)
    (seq : ℕ) (inner : List ℕ) : Envelope :=
  if inner.length > COMP_SIZE ∧ compDefault = COMP_ZLIB then
    { seq := seq, hash := hashFn inner, compression := COMP_ZLIB, message := zlib.comp inner }
  else if inner.length > COMP_SIZE ∧ compDefault = COMP_LZ4F then
    { seq := seq, hash := hashFn inner, compression := COMP_LZ4F, message := lz4.comp inner }
  else
    { seq := seq, hash := hashFn inner, compression := COMP_NONE, message := inner }

/-- Modelled from the spec: the envelope decoder of the Core client
module (not among the sources).  "decoding must always honor the
compression tag independent of size": branch on the tag alone,
decompressing with the tagged algorithm; an unknown tag fails. -/
def decodeEnvelope (zlib lz4 : Codec) (env : Envelope) : Option (List ℕ) :=
  if env.compression = COMP_NONE then some env.message
  else if env.compression = COMP_ZLIB then some (zlib.decomp env.message)
  else if env.compression = COMP_LZ4F then some (lz4.decomp env.message)
  else none

/-!
## Claim theorems
-/

/-- C2: for every correlator handle whose outcome holds a captured
error, both `wait(timeout)` and `is_set()` raise that exact stored
error object instead of returning — for every query: the methods do not
write the handle (their types take the handle unchanged), so a second
`wait`/`is_set` on the same fulfilled handle raises the same error
again. -/
theorem requestEvent_error_reraise (r : RequestEvent) (e : Exc)
    (hset : r.event = true) (hexc : r.exception = some e) :
    r.is_set = .error e ∧ ∀ w : Bool, r.wait w = .error e := by
  simp [RequestEvent.is_set, RequestEvent.wait, hset, hexc]

/-- Witness for C2 at a concrete fulfilled-with-error handle. -/
theorem requestEvent_error_reraise_witness :
    ({ event := true, exception := some ⟨.amqpError, 3⟩ } : RequestEvent).is_set
        = .error ⟨.amqpError, 3⟩ ∧
    ({ event := true, exception := some ⟨.amqpError, 3⟩ } : RequestEvent).wait false
        = .error ⟨.amqpError, 3⟩ :=
  ⟨(requestEvent_error_reraise _ ⟨.amqpError, 3⟩ rfl rfl).1,
   (requestEvent_error_reraise _ ⟨.amqpError, 3⟩ rfl rfl).2 false⟩

/-- C9: a handle marked finished with no captured exception reports
finished (returns true) from both `wait` and `is_set`, never raising,
whatever the `success` field holds (the caller must inspect
`success`/`payload` to tell failure from success). -/
theorem requestEvent_finished_no_raise (r : RequestEvent)
    (hset : r.event = true) (hexc : r.exception = none) :
    r.is_set = .ok true ∧ ∀ w : Bool, r.wait w = .ok true := by
  simp [RequestEvent.is_set, RequestEvent.wait, hset, hexc]

/-- Witness for C9 at a concrete handle fulfilled as failed
(`success = some false`) with no captured exception. -/
theorem requestEvent_finished_no_raise_witness :
    ({ event := true, success := some false } : RequestEvent).is_set = .ok true ∧
    ({ event := true, success := some false } : RequestEvent).wait false = .ok true :=
  ⟨(requestEvent_finished_no_raise _ rfl rfl).1,
   (requestEvent_finished_no_raise _ rfl rfl).2 false⟩

/-- C4: for every delivered message, `__recv_cb` returns normally (the
drain loop is not aborted), the unacked counter increases by exactly
one and the last-delivery-tag becomes that message's tag, whether the
registered callback returned normally or raised (the exception is
logged and swallowed; the `finally` block still runs). -/
theorem recv_cb_bookkeeping (u : ℕ) (l : Option ℕ) (tag : ℕ) (out : Except Exc Unit) :
    AmqpLink.recv_cb u l tag out = .ok (u + 1, some tag) := by
  cases out <;> rfl

/-- C1: calling `start()` on a stopped manager, when either readiness
wait times out, tears both sessions down (`stop()`: `__end` set, both
thread references joined and cleared) and raises a `LinkException`
whose cause is the Receiver's captured error when one exists, else the
Sender's captured error when one exists, else the generic
`Unknown link failure (timeout reached)` error. -/
theorem start_timeout_surfaces_recv_error_first (s : AmqpLink) (env : StartEnv)
    (hr : s.recv_thread = false) (hs : s.send_thread = false)
    (hfail : (env.sendReadyInTime && env.recvReadyInTime) = false) :
    ((s.start env).1.endFlag = true ∧ (s.start env).1.recv_thread = false ∧
      (s.start env).1.send_thread = false) ∧
    (∀ e, (s.start env).1.recv_exc = some e →
      (s.start env).2 = .error (.receiveThreadFailure e)) ∧
    ((s.start env).1.recv_exc = none → ∀ e, (s.start env).1.send_exc = some e →
      (s.start env).2 = .error (.sendThreadFailure e)) ∧
    ((s.start env).1.recv_exc = none → (s.start env).1.send_exc = none →
      (s.start env).2 = .error .unknownLinkFailure) := by
  obtain ⟨sr, rr, se, re⟩ := env
  cases sr <;> cases rr <;> simp_all [AmqpLink.start, AmqpLink.stop, Option.orElse] <;>
    cases re <;> cases se <;> cases hre : s.recv_exc <;> cases hse : s.send_exc <;>
      simp_all [Option.orElse]

/-- Helper: a `start()` that timed out on a readiness wait leaves both
thread references cleared and both readiness events cleared (the
`stop()` it invokes joined whatever was running). -/
theorem start_failed_threads (s : AmqpLink) (env : StartEnv)
    (hr : s.recv_thread = false) (hs : s.send_thread = false)
    (hfail : (env.sendReadyInTime && env.recvReadyInTime) = false) :
    (s.start env).1.recv_thread = false ∧ (s.start env).1.send_thread = false ∧
    (s.start env).1.send_ready = false ∧ (s.start env).1.recv_ready = false := by
  obtain ⟨sr, rr, se, re⟩ := env
  cases sr <;> cases rr <;> simp_all [AmqpLink.start, AmqpLink.stop, Option.orElse] <;>
    cases re <;> cases se <;> cases s.recv_exc <;> cases s.send_exc <;>
      simp_all [Option.orElse]

/-- Helper: `start()` on a manager with no held thread references never
takes the already-started branch, and succeeds outright when both
sessions signal readiness within the bound. -/
theorem start_on_stopped (t : AmqpLink) (env2 : StartEnv)
    (hr : t.recv_thread = false) (hs : t.send_thread = false) :
    (t.start env2).2 ≠ .error .alreadyStarted ∧
    (env2.sendReadyInTime = true → env2.recvReadyInTime = true →
      (t.start env2).2 = .ok ()) := by
  obtain ⟨sr2, rr2, se2, re2⟩ := env2
  cases sr2 <;> cases rr2 <;> simp_all [AmqpLink.start, AmqpLink.stop, Option.orElse] <;>
    cases re2 <;> cases se2 <;> cases t.recv_exc <;> cases t.send_exc <;>
      simp_all [Option.orElse]

/-- C10: a `start()` that fails on a readiness timeout leaves the
manager stopped: both thread references are cleared, `is_alive()` is
false, and a subsequent `start()` re-runs the full startup sequence —
it never raises the already-started error, and succeeds when both
sessions then become ready in time. -/
theorem start_failure_leaves_stopped (s : AmqpLink) (env : StartEnv)
    (hr : s.recv_thread = false) (hs : s.send_thread = false)
    (hfail : (env.sendReadyInTime && env.recvReadyInTime) = false) :
    (s.start env).1.is_alive = false ∧ (s.start env).1.recv_thread = false ∧
    (s.start env).1.send_thread = false ∧
    (∀ env2 : StartEnv, ((s.start env).1.start env2).2 ≠ .error .alreadyStarted) ∧
    (∀ env2 : StartEnv, env2.sendReadyInTime = true → env2.recvReadyInTime = true →
      ((s.start env).1.start env2).2 = .ok ()) := by
  obtain ⟨h1, h2, h3, h4⟩ := start_failed_threads s env hr hs hfail
  exact ⟨by simp [AmqpLink.is_alive, h1, h2], h1, h2,
    fun env2 => (start_on_stopped _ env2 h1 h2).1,
    fun env2 a b => (start_on_stopped _ env2 h1 h2).2 a b⟩

/-- Witness for C1: a fresh manager whose sender becomes ready but
whose receiver times out having captured an access-refused error;
`start()` raises the receive-thread failure chained from that error
and leaves `__end` set with both thread references cleared. -/
theorem start_timeout_surfaces_recv_error_first_witness :
    ((({} : AmqpLink).start
        ⟨true, false, some ⟨.amqpError, 1⟩, some ⟨.accessRefused, 2⟩⟩).2
      = .error (.receiveThreadFailure ⟨.accessRefused, 2⟩)) ∧
    (({} : AmqpLink).start
        ⟨true, false, some ⟨.amqpError, 1⟩, some ⟨.accessRefused, 2⟩⟩).1.endFlag = true ∧
    (({} : AmqpLink).start
        ⟨true, false, some ⟨.amqpError, 1⟩, some ⟨.accessRefused, 2⟩⟩).1.recv_thread = false :=
  ⟨(start_timeout_surfaces_recv_error_first {}
      ⟨true, false, some ⟨.amqpError, 1⟩, some ⟨.accessRefused, 2⟩⟩ rfl rfl rfl).2.1
      ⟨.accessRefused, 2⟩ (by decide),
   (start_timeout_surfaces_recv_error_first {}
      ⟨true, false, some ⟨.amqpError, 1⟩, some ⟨.accessRefused, 2⟩⟩ rfl rfl rfl).1.1,
   (start_timeout_surfaces_recv_error_first {}
      ⟨true, false, some ⟨.amqpError, 1⟩, some ⟨.accessRefused, 2⟩⟩ rfl rfl rfl).1.2.1⟩

/-- Witness for C10: a fresh manager whose sender never becomes ready;
the failed `start()` leaves `is_alive()` false and a retry with both
sessions ready succeeds. -/
theorem start_failure_leaves_stopped_witness :
    (({} : AmqpLink).start ⟨false, false, none, none⟩).1.is_alive = false ∧
    ((({} : AmqpLink).start ⟨false, false, none, none⟩).1.start
        ⟨true, true, none, none⟩).2 = .ok () :=
  ⟨(start_failure_leaves_stopped {} ⟨false, false, none, none⟩ rfl rfl rfl).1,
   (start_failure_leaves_stopped {} ⟨false, false, none, none⟩ rfl rfl rfl).2.2.2.2
      ⟨true, true, none, none⟩ rfl rfl⟩

/-- C6: whenever the Sender does not become ready within `send`'s
bounded wait, `send` raises `Sender unavailable` chained from the
Sender's last captured error (or the unknown-error variant when none
was captured) and never reaches the publish call; in particular after
`stop()` the readiness wait can no longer succeed, so a subsequent
`send()` always fails that way instead of publishing or hanging. -/
theorem send_not_ready_error :
    (∀ (s : AmqpLink) (env : SendEnv),
      s.sendReadyWait env.senderBecomesReady = false →
        (s.send env).2 = false ∧
        (∀ e, s.send_exc = some e → (s.send env).1 = .error (.senderUnavailable e)) ∧
        (s.send_exc = none → (s.send env).1 = .error .senderUnavailableUnknown)) ∧
    (∀ (s : AmqpLink) (env : SendEnv), (s.send_ready = true → s.send_thread = true) →
      s.stop.sendReadyWait env.senderBecomesReady = false ∧
      (s.stop.send env).2 = false ∧
      (∀ e, s.send_exc = some e → (s.stop.send env).1 = .error (.senderUnavailable e)) ∧
      (s.send_exc = none → (s.stop.send env).1 = .error .senderUnavailableUnknown)) := by
  constructor
  · intro s env hnr
    refine ⟨?_, ?_, ?_⟩ <;>
      simp_all [AmqpLink.send] <;> cases s.send_exc <;> simp_all
  · intro s env hinv
    have hexc : s.stop.send_exc = s.send_exc := by
      simp [AmqpLink.stop]
      split <;> split <;> simp_all
    have hnr : s.stop.sendReadyWait env.senderBecomesReady = false := by
      simp [AmqpLink.stop, AmqpLink.sendReadyWait]
      split <;> split <;> simp_all
    refine ⟨hnr, ?_, ?_, ?_⟩ <;>
      simp_all [AmqpLink.send] <;> cases h : s.send_exc <;> simp_all

/-- Witness for C6: a sender that never became ready raises the chained
unavailable error; a started-then-stopped manager's `send` fails with
the unknown-error variant and never reaches the publish call. -/
theorem send_not_ready_error_witness :
    (({ send_exc := some ⟨.amqpError, 5⟩ } : AmqpLink).send ⟨true, .ok⟩).1
      = .error (.senderUnavailable ⟨.amqpError, 5⟩) ∧
    ((({ send_ready := true, send_thread := true } : AmqpLink).stop.send ⟨true, .ok⟩).1
      = .error .senderUnavailableUnknown) ∧
    (({ send_ready := true, send_thread := true } : AmqpLink).stop.send ⟨true, .ok⟩).2
      = false :=
  ⟨(send_not_ready_error.1 { send_exc := some ⟨.amqpError, 5⟩ } ⟨true, .ok⟩
      (by decide)).2.1 ⟨.amqpError, 5⟩ rfl,
   (send_not_ready_error.2 { send_ready := true, send_thread := true } ⟨true, .ok⟩
      (fun _ => rfl)).2.2.2 rfl,
   (send_not_ready_error.2 { send_ready := true, send_thread := true } ⟨true, .ok⟩
      (fun _ => rfl)).2.1⟩

/-- Helper: the inner drain loop leaves deliveries undrained only when
the unacked counter has reached the ack threshold. -/
theorem processSlice_stuck_threshold (thr : ℚ) (slice : List ℕ) :
    ∀ (u : ℕ) (l : Option ℕ), (processSlice thr slice u l).2.2 ≠ [] →
      thr ≤ ((processSlice thr slice u l).1 : ℚ) := by
  induction slice with
  | nil => intro u l h; simp [processSlice] at h
  | cons d ds ih =>
    intro u l h
    by_cases hc : (u : ℚ) < thr
    · simpa [processSlice, hc] using ih (u + 1) (some d) (by simpa [processSlice, hc] using h)
    · simpa [processSlice, hc] using le_of_not_lt hc

/-- C3 counterexample: the claim's decision function uses
`threshold = floor(prefetch × ackFraction)`, but the code compares the
unacked count against the unrounded product `prefetch * ackpc` and
additionally never acks a zero count.  With `prefetch = 7`,
`ackFraction = 1/2` the claimed function fires at 3 unacked messages
while the loop drains on past 3 and first acks a batch of 4; with
`ackFraction = 0` and nothing unacked the claimed function fires while
the code never acks. -/
theorem drain_flush_floor_counterexample :
    shouldFlushSpec 7 (1/2) 3 false = true ∧
    flushDecision 7 (1/2) 3 false = false ∧
    shouldFlushSpec 10 0 0 false = true ∧
    flushDecision 10 0 0 false = false ∧
    outerIter (({ prefetch := 7 } : AmqpLink).ack_threshold) [1, 2, 3, 4, 5, 6, 7] 0 none
      = (some (4, some 4), 0, some 4, [5, 6, 7]) := by
  refine ⟨?_, ?_, ?_, ?_, ?_⟩ <;>
    norm_num [shouldFlushSpec, flushDecision, outerIter, processSlice, AmqpLink.ack_threshold]

/-- C3 as amended: the drain loop's flush decision at each poll-slice
boundary is `(unacked ≥ prefetch × ackFraction — unrounded — OR the
poll elapsed) AND unacked > 0`; with `prefetch = 10`,
`ackFraction = 0.5` the threshold is 5, five quick deliveries produce
exactly one cumulative ack covering all 5 up to tag 5, and four
deliveries followed by a pause past the poll interval produce exactly
one ack covering those 4 up to tag 4. -/
theorem drain_flush_amended :
    (∀ (s : AmqpLink) (slice : List ℕ) (u : ℕ) (l : Option ℕ),
      (outerIter s.ack_threshold slice u l).1.isSome =
        flushDecision s.prefetch s.ackpc
          (processSlice s.ack_threshold slice u l).1
          (decide ((processSlice s.ack_threshold slice u l).2.2 = []))) ∧
    ({ prefetch := 10 } : AmqpLink).ack_threshold = 5 ∧
    recvSlices (({ prefetch := 10 } : AmqpLink).ack_threshold)
      [[1, 2, 3, 4, 5], []] [] 0 none = [(5, some 5)] ∧
    recvSlices (({ prefetch := 10 } : AmqpLink).ack_threshold)
      [[1, 2, 3, 4], []] [] 0 none = [(4, some 4)] := by
  refine ⟨?_, by norm_num [AmqpLink.ack_threshold],
    by norm_num [recvSlices, outerIter, processSlice, AmqpLink.ack_threshold],
    by norm_num [recvSlices, outerIter, processSlice, AmqpLink.ack_threshold]⟩
  intro s slice u l
  simp only [outerIter, flushDecision, AmqpLink.ack_threshold]
  by_cases h0 : (processSlice ((s.prefetch : ℚ) * s.ackpc) slice u l).1 = 0
  · simp [h0]
  · have h0' : 0 < (processSlice ((s.prefetch : ℚ) * s.ackpc) slice u l).1 :=
      Nat.pos_of_ne_zero h0
    by_cases hrest : (processSlice ((s.prefetch : ℚ) * s.ackpc) slice u l).2.2 = []
    · simp [h0, hrest, h0']
    · have hthr := processSlice_stuck_threshold ((s.prefetch : ℚ) * s.ackpc) slice u l hrest
      simp [h0, hrest, h0', hthr]

/-- C5 at its failing input: when the receive session's connect/run
cycle raises a `ConnectionForced` (forced disconnect by the broker),
the loop does retry after the backoff, but the handler records the
exception in the Sender's captured-error slot (`__send_exc`), leaving
the Receiver's own `__recv_exc` untouched — contradicting the claim
(and the surrounding handlers, which all record into `__recv_exc`). -/
theorem recv_connectionForced_misrecorded :
    (({} : AmqpLink).recvClassify ⟨.connectionForced, 7⟩).2 = .retryAfterBackoff ∧
    (({} : AmqpLink).recvClassify ⟨.connectionForced, 7⟩).1.recv_exc = none ∧
    (({} : AmqpLink).recvClassify ⟨.connectionForced, 7⟩).1.send_exc
      = some ⟨.connectionForced, 7⟩ ∧
    (({} : AmqpLink).recvClassify ⟨.accessRefused, 8⟩).1.recv_exc = some ⟨.accessRefused, 8⟩ ∧
    (({} : AmqpLink).recvClassify ⟨.unexpected, 9⟩).2 = .terminate :=
  ⟨rfl, rfl, rfl, rfl, rfl⟩

/-- C8 at its failing input: a session constructed with
`draintimeout = 0.5` still passes the hard-coded literal `0.1` to every
blocking `drain_events` call — the stored tunable is never read by the
drain loop, contradicting the constructor's documentation of the
parameter. -/
theorem drain_timeout_hardcoded :
    ({ draintimeout := 1/2 } : AmqpLink).draintimeout = 1/2 ∧
    ({ draintimeout := 1/2 } : AmqpLink).drainCallTimeout = 1/10 ∧
    ({ draintimeout := 1/2 } : AmqpLink).drainCallTimeout
      ≠ ({ draintimeout := 1/2 } : AmqpLink).draintimeout :=
  ⟨rfl, rfl, by norm_num [AmqpLink.drainCallTimeout]⟩

/-- C7: whenever the external zlib and lz4-framed libraries invert
their own compression, decoding an encoded envelope reproduces the
original inner bytes, for any configured algorithm and any inner size;
the encoder compresses only when the inner message exceeds the 768-byte
threshold (with the configured algorithm, zlib by default), while the
decoder branches on the compression tag alone, regardless of size. -/
theorem envelope_roundtrip (zlib lz4 : Codec) (hashFn : List ℕ → ℕ)
    (compDefault seq : ℕ) (inner : List ℕ)
    (hz : ∀ b, zlib.decomp (zlib.comp b) = b)
    (hl : ∀ b, lz4.decomp (lz4.comp b) = b) :
    decodeEnvelope zlib lz4 (encodeEnvelope zlib lz4 hashFn compDefault seq inner)
      = some inner ∧
    ((encodeEnvelope zlib lz4 hashFn compDefault seq inner).compression ≠ COMP_NONE →
      inner.length > COMP_SIZE) ∧
    (inner.length ≤ COMP_SIZE →
      (encodeEnvelope zlib lz4 hashFn compDefault seq inner).compression = COMP_NONE) ∧
    (inner.length > COMP_SIZE → compDefault = COMP_ZLIB →
      (encodeEnvelope zlib lz4 hashFn compDefault seq inner).compression = COMP_ZLIB) ∧
    (inner.length > COMP_SIZE → compDefault = COMP_LZ4F →
      (encodeEnvelope zlib lz4 hashFn compDefault seq inner).compression = COMP_LZ4F) ∧
    (∀ env : Envelope, env.compression = COMP_ZLIB →
      decodeEnvelope zlib lz4 env = some (zlib.decomp env.message)) ∧
    (∀ env : Envelope, env.compression = COMP_LZ4F →
      decodeEnvelope zlib lz4 env = some (lz4.decomp env.message)) ∧
    COMP_DEFAULT = COMP_ZLIB := by
  by_cases hlen : inner.length > COMP_SIZE <;>
    by_cases hdz : compDefault = COMP_ZLIB <;>
    by_cases hdl : compDefault = COMP_LZ4F <;>
      simp_all [encodeEnvelope, decodeEnvelope, COMP_NONE, COMP_ZLIB, COMP_LZ4F,
        COMP_DEFAULT, COMP_SIZE]
  all_goals
    have hlen2 : ¬ (768 < inner.length) := by omega
    simp only [if_neg hlen2]
    simp_all

/-- Witness for C7 with concrete invertible stand-in codecs: a
769+-byte message is compressed with the configured algorithm and
decodes back; a short message is stored uncompressed and decodes back;
an already-tagged short envelope is still decompressed by tag. -/
theorem envelope_roundtrip_witness :
    decodeEnvelope ⟨fun b => 7 :: b, fun b => b.tail⟩ ⟨fun b => 9 :: b, fun b => b.tail⟩
      (encodeEnvelope ⟨fun b => 7 :: b, fun b => b.tail⟩ ⟨fun b => 9 :: b, fun b => b.tail⟩
        List.length COMP_ZLIB 1 (List.replicate 800 3))
      = some (List.replicate 800 3) ∧
    decodeEnvelope ⟨fun b => 7 :: b, fun b => b.tail⟩ ⟨fun b => 9 :: b, fun b => b.tail⟩
      (encodeEnvelope ⟨fun b => 7 :: b, fun b => b.tail⟩ ⟨fun b => 9 :: b, fun b => b.tail⟩
        List.length COMP_LZ4F 2 [1, 2, 3])
      = some [1, 2, 3] ∧
    decodeEnvelope ⟨fun b => 7 :: b, fun b => b.tail⟩ ⟨fun b => 9 :: b, fun b => b.tail⟩
      ⟨3, 0, COMP_LZ4F, [9, 5]⟩ = some [5] :=
  ⟨(envelope_roundtrip _ _ List.length COMP_ZLIB 1 (List.replicate 800 3)
      (fun _ => rfl) (fun _ => rfl)).1,
   (envelope_roundtrip _ _ List.length COMP_LZ4F 2 [1, 2, 3]
      (fun _ => rfl) (fun _ => rfl)).1,
   (envelope_roundtrip ⟨fun b => 7 :: b, fun b => b.tail⟩ ⟨fun b => 9 :: b, fun b => b.tail⟩
      List.length COMP_LZ4F 2 [1, 2, 3]
      (fun _ => rfl) (fun _ => rfl)).2.2.2.2.2.2.1 ⟨3, 0, COMP_LZ4F, [9, 5]⟩ rfl⟩
